import Mathlib

/-!
Shallow embedding of `magic-container-app/src-tauri/python_server/main.py`,
a FastAPI server that loads one llama.cpp model and serves a streaming
chat endpoint plus a health endpoint.
-/

/-- An engine handle as built by the external `Llama` constructor
(main.py line 70); the fields mirror the constructor arguments. -/
structure Llama where
  model_path : String
  n_gpu_layers : Int
  n_ctx : Nat
  verbose : Bool
  deriving DecidableEq, Repr

/-- Behaviour of the external `Llama` constructor: given
`model_path`, `n_gpu_layers`, `n_ctx`, `verbose` it either returns a
handle or raises an exception carrying a message. -/
def LlamaCtor : Type := String → Int → Nat → Bool → Except String Llama

/-- Parsed request body of `POST /chat` (main.py lines 24-27):
`message: str`, `max_tokens: int = 512`, `temperature: float = 0.7`.
The temperature is never computed with, only passed through, so it is
embedded as a rational. -/
structure ChatRequest where
  message : String
  max_tokens : Int
  temperature : Rat
  deriving DecidableEq, Repr

/-- An inbound JSON body for `POST /chat` before pydantic validation:
each declared field is present or absent. -/
structure RawChatBody where
  message : Option String
  max_tokens : Option Int
  temperature : Option Rat
  deriving DecidableEq, Repr

/-- The pydantic validation error FastAPI turns into an HTTP 422 response. -/
inductive ValidationError where
  | fieldRequired (field : String)
  deriving DecidableEq, Repr

/-- Pydantic validation of `ChatRequest` (main.py lines 24-27): `message`
is a required field with no further constraint, `max_tokens` defaults to
512 and `temperature` to 0.7 when absent. -/
def parseChatRequest (body : RawChatBody) : Except ValidationError ChatRequest :=
  match body.message with
  | none => .error (.fieldRequired "message")
  | some m =>
      .ok { message := m
            max_tokens := body.max_tokens.getD 512
            temperature := body.temperature.getD 0.7 }

/-- Whether pydantic validation rejects the body (HTTP 422-equivalent). -/
def chatRequestRejected (body : RawChatBody) : Bool :=
  match parseChatRequest body with
  | .error _ => true
  | .ok _ => false

/-- The arguments of the generation call `model(prompt, max_tokens=...,
stop=..., temperature=..., stream=True)` (main.py lines 40-46). -/
structure EngineCall where
  prompt : String
  max_tokens : Int
  stop : List String
  temperature : Rat
  stream : Bool
  deriving DecidableEq, Repr

/-- Result of the `chat` handler before the response body is produced:
either the HTTP 500 `Model not loaded` error, or a streaming response
driven by one engine invocation. -/
inductive ChatOutcome where
  | modelNotLoaded (statusCode : Nat) (detail : String)
  | streaming (call : EngineCall)
  deriving DecidableEq, Repr

/-- The `chat` handler body (main.py lines 29-46): if the global `model`
is `None`, raise `HTTPException(500, "Model not loaded")`; otherwise build
the prompt and invoke the engine with the fixed stop sequences and the
request parameters. -/
def chat (model : Option Llama) (request : ChatRequest) : ChatOutcome :=
  match model with
  | none => .modelNotLoaded 500 "Model not loaded"
  | some _ =>
      .streaming
        { prompt := "User: " ++ request.message ++ "\nAssistant: "
          max_tokens := request.max_tokens
          stop := ["User:", "\nUser"]
          temperature := request.temperature
          stream := true }

/-- The full `POST /chat` endpoint: FastAPI validates the body into a
`ChatRequest` (422 on failure) and then runs the handler. -/
def handle (model : Option Llama) (body : RawChatBody) :
    Except ValidationError ChatOutcome :=
  (parseChatRequest body).map (chat model)

/-- Whether the outcome invoked the engine binding at all. -/
def engineInvoked : ChatOutcome → Bool
  | .modelNotLoaded _ _ => false
  | .streaming _ => true

/-- Response payload of `GET /health` (main.py lines 61-63). -/
structure HealthResponse where
  status : String
  model_loaded : Bool
  deriving DecidableEq, Repr

/-- The `health` endpoint (main.py lines 61-63): reads the global `model`
and returns `{"status": "ok", "model_loaded": model is not None}`; it
never writes the global, so the state it leaves behind is returned
unchanged. -/
def healthEndpoint (model : Option Llama) : HealthResponse × Option Llama :=
  ({ status := "ok", model_loaded := model.isSome }, model)

/-- `ModelStatus = Ready` in the code is exactly the global `model` being
set (the check on main.py line 32). -/
def modelStatusReady (model : Option Llama) : Bool :=
  model.isSome

/-- `load_model` (main.py lines 65-73): calls the `Llama` constructor with
`n_gpu_layers=-1`, `n_ctx=2048`, `verbose=True`; on success the global
becomes the handle, and any exception is caught and logged, leaving the
global `None`. The outer `Except` layer records whether `load_model`
itself propagates an exception; the result pairs the new value of the
global `model` with the printed log lines. -/
def load_model (path : String) (ctor : LlamaCtor) :
    Except String (Option Llama × List String) :=
  match ctor path (-1) 2048 true with
  | .ok m =>
      .ok (some m, ["Loading model from: " ++ path, "Model loaded successfully!"])
  | .error e =>
      .ok (none, ["Loading model from: " ++ path, "Failed to load model: " ++ e])

/-- One observable run of the engine's streaming generator: the `text`
fragments it yields (each is `output['choices'][0]['text']`), ending
either in normal exhaustion or in a raised exception with a message. -/
inductive EngineRun where
  | ok (fragments : List String)
  | raises (fragments : List String) (msg : String)
  deriving DecidableEq, Repr

/-- A unit of the streaming protocol (spec data model `StreamEvent`). -/
inductive StreamEvent where
  | token (text : String)
  | error (message : String)
  | done
  deriving DecidableEq, Repr

/-- The event sequence produced by `event_generator` (main.py lines
38-57): one `Token` per non-empty fragment in order; then one `Done` if
the engine stream was exhausted normally, or one `Error` carrying the
exception message if the engine raised (the `except` clause catches the
exception and ends the generator after the error frame). -/
def eventGenerator : EngineRun → List StreamEvent
  | .ok frags =>
      ((frags.filter (fun t => t != "")).map StreamEvent.token) ++ [StreamEvent.done]
  | .raises frags msg =>
      ((frags.filter (fun t => t != "")).map StreamEvent.token) ++ [StreamEvent.error msg]

/-- Lowercase hexadecimal digit, as produced by Python's `json` module. -/
def hexDigitChar (n : Nat) : Char :=
  if n < 10 then Char.ofNat (48 + n) else Char.ofNat (87 + n)

/-- Four-digit lowercase hexadecimal rendering of a code point. -/
def hex4 (n : Nat) : String :=
  String.mk [hexDigitChar (n / 4096 % 16), hexDigitChar (n / 256 % 16),
    hexDigitChar (n / 16 % 16), hexDigitChar (n % 16)]

/-- Escaping of one character by `json.dumps(..., ensure_ascii=False)`:
quote, backslash and the named control characters get two-character
escapes, other control characters get `\uXXXX`, everything else is
emitted as is. -/
def pyJsonEscapeChar (c : Char) : String :=
  if c = '"' then "\\\""
  else if c = '\\' then "\\\\"
  else if c = '\n' then "\\n"
  else if c = '\t' then "\\t"
  else if c = '\r' then "\\r"
  else if c = Char.ofNat 8 then "\\b"
  else if c = Char.ofNat 12 then "\\f"
  else if c.toNat < 32 then "\\u" ++ hex4 c.toNat
  else String.singleton c

/-- JSON string literal for `s`, per `json.dumps` with
`ensure_ascii=False`. -/
def pyJsonEncodeString (s : String) : String :=
  "\"" ++ String.join (s.data.map pyJsonEscapeChar) ++ "\""

/-- The serialized object `json.dumps(\x7b"token": t\x7d, ensure_ascii=False)`
(main.py line 51). -/
def pyJsonDumpsToken (t : String) : String :=
  "\x7b\"token\": " ++ pyJsonEncodeString t ++ "\x7d"

/-- The serialized object `json.dumps(\x7b"error": m\x7d, ensure_ascii=False)`
(main.py line 56). -/
def pyJsonDumpsError (m : String) : String :=
  "\x7b\"error\": " ++ pyJsonEncodeString m ++ "\x7d"

/-- The strings actually yielded by `event_generator` (main.py lines
38-57): for each non-empty fragment the frame
`data: \x7b"token": ...\x7d\n\n`, then `data: [DONE]\n\n` on normal
exhaustion, or `data: \x7b"error": ...\x7d\n\n` when the engine raised. -/
def eventGeneratorFrames : EngineRun → List String
  | .ok frags =>
      ((frags.filter (fun t => t != "")).map
        (fun t => "data: " ++ pyJsonDumpsToken t ++ "\n\n")) ++
      ["data: [DONE]\n\n"]
  | .raises frags msg =>
      ((frags.filter (fun t => t != "")).map
        (fun t => "data: " ++ pyJsonDumpsToken t ++ "\n\n")) ++
      ["data: " ++ pyJsonDumpsError msg ++ "\n\n"]

/-- Serialization of one `StreamEvent` to a text-event-stream frame, as
the spec describes it; compared against `eventGeneratorFrames` below. -/
def serializeStreamEvent : StreamEvent → String
  | .token t => "data: " ++ pyJsonDumpsToken t ++ "\n\n"
  | .error m => "data: " ++ pyJsonDumpsError m ++ "\n\n"
  | .done => "data: [DONE]\n\n"

/-- Whether a stream event is terminal (`Done` or `Error`). -/
def isTerminal : StreamEvent → Bool
  | .token _ => false
  | .error _ => true
  | .done => true

/-- The payloads of the `Token` events of a stream, in order. -/
def tokenTexts (events : List StreamEvent) : List String :=
  events.filterMap fun e =>
    match e with
    | .token t => some t
    | _ => none

/-- One inbound request handled after startup: either `POST /chat` with
some body or `GET /health`. -/
inductive ServerOp where
  | chatReq (body : RawChatBody)
  | healthReq
  deriving DecidableEq, Repr

/-- The `POST /chat` endpoint as a state transformer: it reads the global
`model` and never assigns it (main.py lines 29-59 contain no write to the
global), so the state it leaves behind is returned unchanged. -/
def chatEndpoint (model : Option Llama) (body : RawChatBody) :
    Except ValidationError ChatOutcome × Option Llama :=
  (handle model body, model)

/-- Effect of one handled request on the global `model`. -/
def serverStep (model : Option Llama) : ServerOp → Option Llama
  | .chatReq body => (chatEndpoint model body).2
  | .healthReq => (healthEndpoint model).2

/-- The global `model` after a sequence of requests handled after
startup. -/
def runServer (model : Option Llama) (ops : List ServerOp) : Option Llama :=
  ops.foldl serverStep model

/-- One whole process run: the single startup `load_model`, then a
sequence of handled requests; the result is the final value of the global
`model` (or the exception if `load_model` propagated one). -/
def processRun (path : String) (ctor : LlamaCtor) (ops : List ServerOp) :
    Except String (Option Llama) :=
  (load_model path ctor).map fun r => runServer r.1 ops

/-- Observable outcome of the `__main__` block (main.py lines 75-87). -/
structure MainResult where
  printed : List String
  exitCode : Option Nat
  loadAttempted : Bool
  server : Option (String × Int)
  deriving DecidableEq, Repr

/-- The `__main__` block (main.py lines 75-87) after argument parsing:
if `os.path.exists(args.model)` is false, print the error and `exit(1)`
before `load_model` and before `uvicorn.run`; otherwise load the model
and start the server on `127.0.0.1:port`. -/
def pythonServerMain (modelArg : String) (port : Int)
    (fileExists : String → Bool) (ctor : LlamaCtor) : MainResult :=
  if fileExists modelArg then
    match load_model modelArg ctor with
    | .ok (_, logs) =>
        { printed := logs
          exitCode := none
          loadAttempted := true
          server := some ("127.0.0.1", port) }
    | .error e =>
        { printed := [e]
          exitCode := none
          loadAttempted := true
          server := none }
  else
    { printed := ["Error: Model file not found at " ++ modelArg]
      exitCode := some 1
      loadAttempted := false
      server := none }

theorem string_foldl_append (l : List String) (a b : String) :
    l.foldl (fun r s => r ++ s) (a ++ b) = a ++ l.foldl (fun r s => r ++ s) b := by
  induction l generalizing b with
  | nil => rfl
  | cons x xs ih => rw [List.foldl_cons, List.foldl_cons, String.append_assoc, ih]

theorem string_join_cons (a : String) (l : List String) :
    String.join (a :: l) = a ++ String.join l := by
  have h := string_foldl_append l a ""
  rw [String.append_empty] at h
  simpa [String.join] using h

theorem string_join_filter_ne_empty (l : List String) :
    String.join (l.filter (fun t => t != "")) = String.join l := by
  induction l with
  | nil => rfl
  | cons a l ih =>
      by_cases h : a = ""
      · subst h
        rw [List.filter_cons, if_neg (by simp), ih, string_join_cons, String.empty_append]
      · rw [List.filter_cons, if_pos (by simpa using h), string_join_cons, ih,
          string_join_cons]

theorem tokens_have_no_terminal (l : List String) :
    (l.map StreamEvent.token).filter isTerminal = [] := by
  induction l with
  | nil => rfl
  | cons a l ih => simp [isTerminal, ih]

theorem tokenTexts_tokens (l : List String) :
    tokenTexts (l.map StreamEvent.token) = l := by
  induction l with
  | nil => rfl
  | cons a l ih =>
      simp only [tokenTexts, List.map_cons, List.filterMap_cons] at ih ⊢
      rw [ih]

/-- C1: for every chat request that passes validation and the readiness
check, the stream's event sequence ends in exactly one terminal event:
on normal exhaustion of the engine's fragments exactly one `Done` at the
end, and if the engine raises (before or mid-stream) exactly one `Error`
carrying the message and nothing after it — never both, never neither,
never a `Done` after an `Error`. -/
theorem stream_exactly_one_terminal_event (frags : List String) (msg : String) :
    ((eventGenerator (EngineRun.ok frags)).filter isTerminal = [StreamEvent.done] ∧
      (eventGenerator (EngineRun.ok frags)).getLast? = some StreamEvent.done) ∧
    ((eventGenerator (EngineRun.raises frags msg)).filter isTerminal
        = [StreamEvent.error msg] ∧
      (eventGenerator (EngineRun.raises frags msg)).getLast?
        = some (StreamEvent.error msg)) := by
  refine ⟨⟨?_, ?_⟩, ?_, ?_⟩ <;>
    simp [eventGenerator, List.filter_append, tokens_have_no_terminal, isTerminal]

/-- C2: while the model handle is absent, `chat` fails with the HTTP 500
`Model not loaded` error and the engine binding is never invoked. -/
theorem chat_not_ready_no_engine_call (request : ChatRequest) :
    chat none request = ChatOutcome.modelNotLoaded 500 "Model not loaded" ∧
    engineInvoked (chat none request) = false :=
  ⟨rfl, rfl⟩

/-- C3 counterexample: a body whose `message` field is present but equal
to the empty string is not rejected; validation accepts it and the
request proceeds with the defaults. -/
theorem empty_message_not_rejected :
    (⟨some "", none, none⟩ : RawChatBody).message = some "" ∧
    chatRequestRejected ⟨some "", none, none⟩ = false ∧
    parseChatRequest ⟨some "", none, none⟩ = Except.ok ⟨"", 512, 0.7⟩ :=
  ⟨rfl, rfl, rfl⟩

/-- C3 amended: the handler rejects a body with an HTTP 422-equivalent
error if and only if the `message` field is missing (the empty string is
accepted); when `max_tokens` or `temperature` are absent the defaults 512
and 0.7 are applied and the request proceeds. -/
theorem chat_request_validation (body : RawChatBody) :
    (chatRequestRejected body = true ↔ body.message = none) ∧
    ∀ m, body.message = some m →
      parseChatRequest body =
        Except.ok ⟨m, body.max_tokens.getD 512, body.temperature.getD 0.7⟩ := by
  refine ⟨?_, ?_⟩
  · cases h : body.message <;> simp [chatRequestRejected, parseChatRequest, h]
  · intro m hm
    simp [parseChatRequest, hm]

/-- Witness for `chat_request_validation` at a concrete body. -/
theorem chat_request_validation_witness :
    parseChatRequest ⟨some "Hi", some 7, some 1⟩ = Except.ok ⟨"Hi", 7, 1⟩ := by
  rw [(chat_request_validation ⟨some "Hi", some 7, some 1⟩).2 "Hi" rfl]
  rfl

/-- C4: if the engine constructor raises during `load_model`, the
exception is caught and logged, the model handle stays absent (the Failed
state), `load_model` itself returns normally instead of crashing the
process, and a subsequent `/health` call succeeds and reports the model
as not loaded. -/
theorem load_failure_degrades (path msg : String) (ctor : LlamaCtor)
    (h : ctor path (-1) 2048 true = Except.error msg) :
    load_model path ctor =
      Except.ok (none, ["Loading model from: " ++ path,
        "Failed to load model: " ++ msg]) ∧
    (load_model path ctor).map (fun r => (healthEndpoint r.1).1) =
      Except.ok ⟨"ok", false⟩ := by
  constructor <;> simp [load_model, h, healthEndpoint, Except.map]

/-- Witness for `load_failure_degrades` with a concrete failing constructor. -/
theorem load_failure_degrades_witness :
    load_model "model.gguf" (fun _ _ _ _ => Except.error "boom") =
      Except.ok (none, ["Loading model from: " ++ "model.gguf",
        "Failed to load model: " ++ "boom"]) :=
  (load_failure_degrades "model.gguf" "boom"
    (fun _ _ _ _ => Except.error "boom") rfl).1

/-- C5: the strings the generator actually yields are exactly the
spec's per-event serialization — `Token t` becomes the frame
`data: ` + the JSON object with key `token`, `Error m` the frame with key
`error`, `Done` the literal `data: [DONE]` frame, each ending in a blank
line. -/
theorem frames_serialize_events (r : EngineRun) :
    eventGeneratorFrames r = (eventGenerator r).map serializeStreamEvent := by
  cases r <;>
    simp [eventGeneratorFrames, eventGenerator, serializeStreamEvent,
      List.map_append, List.map_map, Function.comp]

/-- C6: for every valid chat request handled while the model is present,
the engine is invoked with exactly the prompt
`User: ` + message + `\nAssistant: `, the fixed stop sequences
`["User:", "\nUser"]`, streaming on, and the request's `max_tokens` and
`temperature` passed through unchanged (defaults applied when absent). -/
theorem chat_ready_engine_call (model : Llama) (body : RawChatBody) (m : String)
    (h : body.message = some m) :
    handle (some model) body = Except.ok (ChatOutcome.streaming
      { prompt := "User: " ++ m ++ "\nAssistant: "
        max_tokens := body.max_tokens.getD 512
        stop := ["User:", "\nUser"]
        temperature := body.temperature.getD 0.7
        stream := true }) := by
  simp [handle, parseChatRequest, h, chat, Except.map]

/-- Witness for `chat_ready_engine_call` at a concrete model and body. -/
theorem chat_ready_engine_call_witness :
    handle (some ⟨"model.gguf", -1, 2048, true⟩) ⟨some "Hi", none, none⟩ =
      Except.ok (ChatOutcome.streaming
        ⟨"User: Hi\nAssistant: ", 512, ["User:", "\nUser"], 0.7, true⟩) := by
  rw [chat_ready_engine_call ⟨"model.gguf", -1, 2048, true⟩
    ⟨some "Hi", none, none⟩ "Hi" rfl]
  rfl

/-- C7: on an error-free engine run the `Token` payloads are exactly the
non-empty fragments in generation order, their concatenation equals the
concatenation of all fragments, and for the fragments
`["Hel", "lo"]` the concatenation is `"Hello"`. -/
theorem stream_token_roundtrip (frags : List String) :
    tokenTexts (eventGenerator (EngineRun.ok frags))
        = frags.filter (fun t => t != "") ∧
    String.join (tokenTexts (eventGenerator (EngineRun.ok frags)))
        = String.join frags ∧
    tokenTexts (eventGenerator (EngineRun.ok ["Hel", "lo"])) = ["Hel", "lo"] ∧
    String.join (tokenTexts (eventGenerator (EngineRun.ok ["Hel", "lo"])))
        = "Hello" := by
  have h1 : ∀ l : List String,
      tokenTexts (eventGenerator (EngineRun.ok l)) = l.filter (fun t => t != "") := by
    intro l
    have h2 := tokenTexts_tokens (l.filter (fun t => t != ""))
    simp only [eventGenerator, tokenTexts, List.filterMap_append] at h2 ⊢
    simp [h2]
  refine ⟨h1 frags, ?_, h1 ["Hel", "lo"], ?_⟩
  · rw [h1 frags, string_join_filter_ne_empty]
  · rw [h1 ["Hel", "lo"]]
    rfl

/-- C8: `health` always succeeds regardless of model state, returns
status `ok` with `model_loaded` true exactly when the model is Ready,
leaves the model state unchanged, and repeated calls with no intervening
load return the identical payload. -/
theorem health_total_and_idempotent (model : Option Llama) :
    healthEndpoint model = (⟨"ok", model.isSome⟩, model) ∧
    (healthEndpoint model).1.status = "ok" ∧
    (healthEndpoint model).1.model_loaded = modelStatusReady model ∧
    (healthEndpoint (healthEndpoint model).2).1 = (healthEndpoint model).1 :=
  ⟨rfl, rfl, rfl, rfl⟩

/-- C9: within one process run the model handle is written only by the
single startup load: any sequence of `/chat` and `/health` requests
leaves the handle unchanged, `model_loaded` never changes value, and the
final handle of a whole run equals exactly what the startup load
produced. -/
theorem model_state_monotone (model : Option Llama) (ops : List ServerOp)
    (path : String) (ctor : LlamaCtor) :
    runServer model ops = model ∧
    (healthEndpoint (runServer model ops)).1.model_loaded =
      (healthEndpoint model).1.model_loaded ∧
    processRun path ctor ops = (load_model path ctor).map Prod.fst := by
  have hstep : ∀ (m : Option Llama) (op : ServerOp), serverStep m op = m := by
    intro m op
    cases op <;> rfl
  have hrun : ∀ (l : List ServerOp) (m : Option Llama), runServer m l = m := by
    intro l
    induction l with
    | nil => intro m; rfl
    | cons op l ih =>
        intro m
        show runServer (serverStep m op) l = m
        rw [hstep, ih]
  refine ⟨hrun ops model, by rw [hrun ops model], ?_⟩
  cases hc : ctor path (-1) 2048 true <;>
    simp [processRun, load_model, hc, hrun]

/-- C10: when the CLI's `--model` path denotes no existing file, the
process prints the error and exits with code 1 before `load_model` is
attempted and before any server socket is opened. -/
theorem missing_model_file_aborts (modelArg : String) (port : Int)
    (fileExists : String → Bool) (ctor : LlamaCtor)
    (h : fileExists modelArg = false) :
    pythonServerMain modelArg port fileExists ctor =
      { printed := ["Error: Model file not found at " ++ modelArg]
        exitCode := some 1
        loadAttempted := false
        server := none } := by
  simp [pythonServerMain, h]

/-- Witness for `missing_model_file_aborts` at a concrete invocation. -/
theorem missing_model_file_aborts_witness :
    pythonServerMain "missing.gguf" 8000 (fun _ => false)
        (fun _ _ _ _ => Except.error "unused") =
      ⟨["Error: Model file not found at " ++ "missing.gguf"], some 1, false, none⟩ :=
  missing_model_file_aborts "missing.gguf" 8000 (fun _ => false)
    (fun _ _ _ _ => Except.error "unused") rfl
